import Mathlib

/-!
Verification of the environment lifecycle / reconciliation engine of the
auto-configuration agent (`agente.py`, `config_parser.py`,
`docker_controller.py`).

The Docker runtime is modelled as an explicit state (containers and
networks, each carrying labels and a removal behaviour), and each source
function is translated into a pure Lean function over that state.  Label
keys attached by the source are finitely many string shapes and are
embedded as an inductive type whose constructors map one-to-one onto the
key strings built by the source (`autotest.env.name`, `traefik.enable`,
`traefik.docker.network`, `traefik.http.routers.{name}.rule`,
`traefik.http.services.{name}.loadbalancer.server.port`,
`autotest.type`).
-/

/-- Label keys used by `docker_controller.py`.  `routerRule n` stands for the
string key `traefik.http.routers.{n}.rule` and `lbPort n` for
`traefik.http.services.{n}.loadbalancer.server.port`; the remaining
constructors stand for the fixed keys named above. -/
inductive LabelKey where
  | envLabel
  | traefikEnable
  | traefikDockerNetwork
  | routerRule (routerName : String)
  | lbPort (routerName : String)
  | autotestType
deriving DecidableEq

/-- Behaviour of a `remove()` call on a runtime resource: the call succeeds,
the resource is already gone (`docker.errors.NotFound`), or the runtime
reports an API error (`docker.errors.APIError`). -/
inductive RemovalOutcome where
  | ok
  | notFound
  | apiError
deriving DecidableEq

/-- A container as seen by the modelled Docker runtime. -/
structure DContainer where
  name : String
  labels : List (LabelKey × String)
  removeOutcome : RemovalOutcome
deriving DecidableEq

/-- A network as seen by the modelled Docker runtime. -/
structure DNetwork where
  name : String
  labels : List (LabelKey × String)
  removeOutcome : RemovalOutcome
deriving DecidableEq

/-- The modelled Docker runtime state. -/
structure DockerState where
  containers : List DContainer
  networks : List DNetwork
deriving DecidableEq

/-- Does a label dictionary carry `autotest.env.name = env`?  This is the
filter `{"label": f"{ENV_LABEL}={env_name}"}` used by the source. -/
def labelsMatch (env : String) (ls : List (LabelKey × String)) : Bool :=
  ls.any (fun p => decide (p.1 = LabelKey.envLabel ∧ p.2 = env))

/-- `client.containers.list(all=True, filters=label_filter)`. -/
def labeledContainers (env : String) (st : DockerState) : List DContainer :=
  st.containers.filter (fun c => labelsMatch env c.labels)

/-- `client.networks.list(filters=label_filter)`. -/
def labeledNetworks (env : String) (st : DockerState) : List DNetwork :=
  st.networks.filter (fun n => labelsMatch env n.labels)

/-- State after a container is gone (successful removal, or removal that
found it already absent). -/
def DockerState.eraseContainer (st : DockerState) (nm : String) : DockerState :=
  ⟨st.containers.filter (fun c => decide (c.name ≠ nm)), st.networks⟩

/-- State after a network is gone. -/
def DockerState.eraseNetwork (st : DockerState) (nm : String) : DockerState :=
  ⟨st.containers, st.networks.filter (fun n => decide (n.name ≠ nm))⟩

/-- The container-removal loop of `destroy_environment`:
`container.remove(force=True, v=True)` for each listed container, with
`except NotFound: pass` per container; an `APIError` is not caught there and
escapes the whole function (`Except.error` carries the state at that point). -/
def removeContainersLoop : List DContainer → DockerState → Except DockerState DockerState
  | [], st => .ok st
  | c :: rest, st =>
    match c.removeOutcome with
    | .ok => removeContainersLoop rest (st.eraseContainer c.name)
    | .notFound => removeContainersLoop rest (st.eraseContainer c.name)
    | .apiError => .error st

/-- The network-removal loop of `destroy_environment`: `network.remove()` for
each listed network with `except NotFound: pass` per network; the whole loop
is wrapped in `try ... except APIError`, so an API error stops the loop but
is only reported (the returned flag). -/
def removeNetworksLoop : List DNetwork → DockerState → DockerState × Bool
  | [], st => (st, false)
  | n :: rest, st =>
    match n.removeOutcome with
    | .ok => removeNetworksLoop rest (st.eraseNetwork n.name)
    | .notFound => removeNetworksLoop rest (st.eraseNetwork n.name)
    | .apiError => (st, true)

/-- Result of `destroy_environment`: the `EnvironmentNotFound` exception, a
propagated container-removal `APIError`, or normal completion (the flag
records whether a network-removal API error was reported). -/
inductive DestroyOutcome where
  | envNotFound (st : DockerState)
  | apiError (st : DockerState)
  | completed (st : DockerState) (netErrReported : Bool)
deriving DecidableEq

/-- `destroy_environment(env_name)`: list containers by label; if none, list
networks by label and raise `EnvironmentNotFound` when that is empty too;
otherwise remove all listed containers, then list and remove all labeled
networks. -/
def destroyEnvironment (env : String) (st : DockerState) : DestroyOutcome :=
  let cs := labeledContainers env st
  if cs.isEmpty ∧ (labeledNetworks env st).isEmpty then
    .envNotFound st
  else
    match removeContainersLoop cs st with
    | .error st₁ => .apiError st₁
    | .ok st₁ =>
      let res := removeNetworksLoop (labeledNetworks env st₁) st₁
      .completed res.1 res.2

/-- An entry of a service's `optimization_rules` list, with the fields the
monitoring loop reads (`rule['metric']`, `rule['action']`, `rule['threshold']`). -/
structure OptRule where
  metric : String
  action : String
  threshold : ℚ
deriving DecidableEq

/-- A `health_check` mapping as parsed from YAML: every field may be absent.
`config_parser._validate_and_set_defaults` checks `type` and the
type-specific field and fills in `retries`/`interval` defaults. -/
structure RawHc where
  type : Option String
  endpoint : Option String
  port : Option String
  retries : Option Nat
  interval : Option Nat
deriving DecidableEq

/-- One service entry of the manifest, with the keys the source reads. -/
structure ServiceCfg where
  image : Option String
  build : Option String
  ports : Option (List String)
  expose : Option (List String)
  environment : List String
  health_check : Option RawHc
  optimization_rules : Option (List OptRule)
deriving DecidableEq

/-- The parsed top-level YAML document: the `services` mapping (if the key is
present) plus any other top-level keys.  An empty dictionary is
`⟨none, []⟩`. -/
structure ConfigDict where
  services : Option (List (String × ServiceCfg))
  extraKeys : List String
deriving DecidableEq

/-- `config_data` is falsy in Python exactly when the dictionary is empty. -/
def ConfigDict.isEmptyDict (d : ConfigDict) : Bool :=
  d.services.isNone && d.extraKeys.isEmpty

/-- The public URL computed by `deploy_environment` and `_scale_service_up`:
`f"{env_name}.{HOST_IP}.nip.io"` with `HOST_IP = "34.197.210.107"`. -/
def publicUrl (env : String) : String :=
  env ++ "." ++ "34.197.210.107" ++ ".nip.io"

/-- The Traefik host rule value `f"Host(`{public_url}`)"`. -/
def hostRuleValue (env : String) : String :=
  "Host(`" ++ publicUrl env ++ "`)"

/-- The primary container name `f"{env_name}-{service_name}"`. -/
def containerName (env svc : String) : String :=
  env ++ "-" ++ svc

/-- The label dictionary `deploy_environment` attaches to a service's primary
container: the base labels `{ENV_LABEL: env_name, "traefik.enable": "true"}`,
plus — only when `service_name == "web"` — the Traefik router rule, the
load-balancer port `5000` and `traefik.docker.network` (in insertion
order). -/
def deployServiceLabels (env svc : String) : List (LabelKey × String) :=
  let base : List (LabelKey × String) :=
    [(LabelKey.envLabel, env), (LabelKey.traefikEnable, "true")]
  if svc = "web" then
    base ++
      [(LabelKey.routerRule (containerName env svc), hostRuleValue env),
       (LabelKey.lbPort (containerName env svc), "5000"),
       (LabelKey.traefikDockerNetwork, "traefik_default")]
  else base

/-- The label dictionary `_scale_service_up` attaches to a replica:
`{ENV_LABEL: env_name, "autotest.type": "replica"}`, plus — only for
`service_name == "web"` — `traefik.enable`, `traefik.docker.network`, and the
router rule / load-balancer port keyed by the ORIGINAL container's name. -/
def replicaLabels (env svc : String) : List (LabelKey × String) :=
  let base : List (LabelKey × String) :=
    [(LabelKey.envLabel, env), (LabelKey.autotestType, "replica")]
  if svc = "web" then
    base ++
      [(LabelKey.traefikEnable, "true"),
       (LabelKey.traefikDockerNetwork, "traefik_default"),
       (LabelKey.routerRule (containerName env svc), hostRuleValue env),
       (LabelKey.lbPort (containerName env svc), "5000")]
  else base

/-- `deploy_environment` (and `_scale_service_up`) connects a container to
the shared `traefik_default` network exactly under `if service_name == "web"`. -/
def connectsTraefikNetwork (svc : String) : Bool :=
  svc = "web"

/-- Routing labels in the sense of the spec: the host-rule and
load-balancer-port keys (`traefik.http.routers.{n}.rule`,
`traefik.http.services.{n}.loadbalancer.server.port`). -/
def isRoutingKey : LabelKey → Bool
  | .routerRule _ => true
  | .lbPort _ => true
  | _ => false

/-- A label dictionary carries routing labels iff some key is a routing key. -/
def hasRoutingLabels (ls : List (LabelKey × String)) : Bool :=
  ls.any (fun p => isRoutingKey p.1)

/-- The router/service identifiers mentioned by a label dictionary. -/
def routerNames (ls : List (LabelKey × String)) : List String :=
  ls.filterMap (fun p =>
    match p.1 with
    | .routerRule n => some n
    | _ => none)

/-- Python truthiness of `image_name` in `elif image_name:`
(`None` and the empty string are falsy). -/
def truthyImage : Option String → Bool
  | none => false
  | some s => s ≠ ""

/-- Behaviour of the runtime calls made while deploying one service:
does `os.path.isdir(build_path)` hold, does `client.images.build` succeed,
does `client.images.pull` succeed, does `client.containers.run` succeed. -/
structure SvcFault where
  buildDirExists : Bool
  buildOk : Bool
  pullOk : Bool
  runOk : Bool
deriving DecidableEq

/-- Behaviour of the runtime during a whole deploy: whether
`client.networks.create` succeeds, and the per-service behaviours. -/
structure DeployFault where
  networkOk : Bool
  svc : String → SvcFault

/-- Errors a deploy attempt can surface.  The first five are the original
errors raised inside the per-service loop (`FileNotFoundError`, a build
error, the re-raised "image not found" `Exception`, `ValueError`, a
container-run error); `networkCreateFailed` is a failure of
`client.networks.create`; the two `cleanup*` values model an exception
raised by `destroy_environment` INSIDE the `except` block, which in Python
replaces the original error. -/
inductive DeployError where
  | buildContextMissing (svc : String)
  | buildFailed (svc : String)
  | imageNotFound (svc : String)
  | noImageNorBuild (svc : String)
  | runFailed (svc : String)
  | networkCreateFailed
  | cleanupEnvNotFound
  | cleanupApiError
deriving DecidableEq

/-- Image resolution for one service (`deploy_environment`, lines 67-86):
`build` takes precedence, else a truthy `image` is pulled, else
`ValueError`. -/
def resolveImage (env svc : String) (cfg : ServiceCfg) (f : SvcFault) :
    Except DeployError String :=
  match cfg.build with
  | some _ =>
    if f.buildDirExists then
      if f.buildOk then .ok (svc ++ ":" ++ env) else .error (.buildFailed svc)
    else .error (.buildContextMissing svc)
  | none =>
    if truthyImage cfg.image then
      if f.pullOk then .ok (cfg.image.getD "") else .error (.imageNotFound svc)
    else .error (.noImageNorBuild svc)

/-- The container `deploy_environment` creates for a service: name
`f"{env_name}-{service_name}"`, the labels of `deployServiceLabels`; being a
real, freshly created resource its later removal succeeds. -/
def mkDeployedContainer (env svc : String) : DContainer :=
  ⟨containerName env svc, deployServiceLabels env svc, RemovalOutcome.ok⟩

/-- The environment network `f"{env_name}-net"`, created with the base
labels (which include `ENV_LABEL`). -/
def mkEnvNetwork (env : String) : DNetwork :=
  ⟨env ++ "-net",
   [(LabelKey.envLabel, env), (LabelKey.traefikEnable, "true")],
   RemovalOutcome.ok⟩

/-- The per-service deploy loop (`for service_name, service_config in
config.get('services', {}).items()`): resolve the image, then
`client.containers.run`; the first exception aborts the loop, carrying the
state reached so far. -/
def deployLoop (env : String) (faults : DeployFault) :
    List (String × ServiceCfg) → DockerState →
    Except (DeployError × DockerState) DockerState
  | [], st => .ok st
  | (svc, cfg) :: rest, st =>
    match resolveImage env svc cfg (faults.svc svc) with
    | .error e => .error (e, st)
    | .ok _img =>
      if (faults.svc svc).runOk then
        deployLoop env faults rest
          ⟨st.containers ++ [mkDeployedContainer env svc], st.networks⟩
      else .error (.runFailed svc, st)

/-- The `except Exception` block of `deploy_environment`: call
`destroy_environment(env_name, client)` and re-raise the original error.  If
the destroy itself raises, that new exception replaces the original one
(Python semantics inside an `except` block). -/
def cleanupAndFail (env : String) (e : DeployError) (st : DockerState) :
    DeployError × DockerState :=
  match destroyEnvironment env st with
  | .envNotFound st₁ => (.cleanupEnvNotFound, st₁)
  | .apiError st₁ => (.cleanupApiError, st₁)
  | .completed st₁ _ => (e, st₁)

/-- `deploy_environment(config, base_dir)` over the modelled runtime: create
the labeled environment network, run the per-service loop, and on any
failure run the cleanup block before surfacing the error.  On success it
returns the new state and the deployed service names. -/
def deployEnvironment (services : List (String × ServiceCfg))
    (faults : DeployFault) (env : String) (st : DockerState) :
    Except (DeployError × DockerState) (DockerState × List String) :=
  if faults.networkOk then
    match deployLoop env faults services
        ⟨st.containers, st.networks ++ [mkEnvNetwork env]⟩ with
    | .ok st₂ => .ok (st₂, services.map (fun p => p.1))
    | .error (e, st₂) => .error (cleanupAndFail env e st₂)
  else .error (cleanupAndFail env .networkCreateFailed st)

/-- The error a deploy attempt is expected to surface, scanning the services
in order: the first service whose image resolution or container creation
fails determines it. -/
def serviceError (env svc : String) (cfg : ServiceCfg) (f : SvcFault) :
    Option DeployError :=
  match resolveImage env svc cfg f with
  | .error e => some e
  | .ok _ => if f.runOk then none else some (.runFailed svc)

/-- First error over the service list, `none` when the deploy succeeds. -/
def firstDeployError (env : String) (faults : DeployFault) :
    List (String × ServiceCfg) → Option DeployError
  | [] => none
  | (svc, cfg) :: rest =>
    match serviceError env svc cfg (faults.svc svc) with
    | some e => some e
    | none => firstDeployError env faults rest

/-- What one cycle's evaluation of a service produced before the self-healing
block: a Healthy verdict, a failed probe (`is_healthy == False`), a
`NotFound` from `client.containers.get`, or any other exception caught by the
generic handler.  All but `healthy` increment the failure counter. -/
inductive Verdict where
  | healthy
  | unhealthy
  | missing
  | checkError
deriving DecidableEq

/-- Behaviour of the restart attempt inside the self-healing block:
`client.containers.get` + `restart()` succeed, `get` raises `NotFound`, or
`restart()` raises `APIError`. -/
inductive RestartOutcome where
  | ok
  | notFound
  | apiError
deriving DecidableEq

/-- The inputs one monitoring cycle feeds a single service. -/
structure CycleInput where
  verdict : Verdict
  restart : RestartOutcome
deriving DecidableEq

/-- One cycle of `monitor_environment` for one service, restricted to the
failure counter (lines 356-407): a Healthy verdict sets the counter to 0,
anything else increments it; then, if the counter has reached
`hc_rule['retries']`, the self-healing block runs — the counter is set back
to 0 only on the success path of the restart (`except NotFound` /
`except APIError` skip the reset).  Returns the new counter and whether the
self-healing block fired. -/
def monitorStep (retries : Nat) (count : Nat) (inp : CycleInput) : Nat × Bool :=
  let c := if inp.verdict = Verdict.healthy then 0 else count + 1
  if retries ≤ c then
    match inp.restart with
    | .ok => (0, true)
    | .notFound => (c, true)
    | .apiError => (c, true)
  else (c, false)

/-- Iterated monitoring cycles for one service: final counter value and the
total number of self-healing activations. -/
def monitorRun (retries : Nat) (count : Nat) : List CycleInput → Nat × Nat
  | [] => (count, 0)
  | inp :: rest =>
    let s := monitorStep retries count inp
    let r := monitorRun retries s.1 rest
    (r.1, (if s.2 then 1 else 0) + r.2)

/-- The guard of the scale-up branch in `monitor_environment` (line 374-375):
`rule['metric'] == 'cpu_usage' and rule['action'] == 'scale_up'` and
`cpu_percent > rule['threshold']`. -/
def ruleFires (cpuPercent : ℚ) (r : OptRule) : Bool :=
  decide (r.metric = "cpu_usage") && decide (r.action = "scale_up") &&
    decide (r.threshold < cpuPercent)

/-- A rule that can ever fire a scale-up, independent of the measured CPU. -/
def isCpuScaleRule (r : OptRule) : Bool :=
  decide (r.metric = "cpu_usage") && decide (r.action = "scale_up")

/-- The replica container `_scale_service_up` creates: name
`f"{env_name}-{service_name}-replica-{replica_id}"` and the labels of
`replicaLabels`. -/
def replicaContainer (env svc rid : String) : DContainer :=
  ⟨containerName env svc ++ "-replica-" ++ rid, replicaLabels env svc,
   RemovalOutcome.ok⟩

/-- `_scale_service_up`: create one replica container.  Every exception is
caught and only printed, so a failing `containers.run` creates nothing and
the caller's loop continues. -/
def scaleServiceUp (env svc rid : String) (runOk : Bool) (st : DockerState) :
    DockerState :=
  if runOk then ⟨st.containers ++ [replicaContainer env svc rid], st.networks⟩
  else st

/-- The `for rule in opt_rules` loop run on a Healthy service (lines
373-379): each rule whose guard fires invokes `_scale_service_up` once, with
a fresh replica id drawn from `idGen` (`uuid.uuid4().hex[:6]`) and the
runtime behaviour `runOk` of that invocation; `k` indexes invocations. -/
def optimizationPass (env svc : String) (cpuPercent : ℚ) (idGen : Nat → String)
    (runOk : Nat → Bool) : List OptRule → Nat → DockerState → DockerState
  | [], _, st => st
  | r :: rest, k, st =>
    if ruleFires cpuPercent r then
      optimizationPass env svc cpuPercent idGen runOk rest (k + 1)
        (scaleServiceUp env svc (idGen k) (runOk k) st)
    else optimizationPass env svc cpuPercent idGen runOk rest k st

/-- The `cpu_usage` sub-dictionary of a stats snapshot. -/
structure CpuUsageStats where
  total_usage : Option Int
  percpu_usage : Option (List Int)
deriving DecidableEq

/-- The `cpu_stats` / `precpu_stats` block of a stats snapshot. -/
structure CpuStatsBlock where
  cpu_usage : Option CpuUsageStats
  system_cpu_usage : Option Int
  online_cpus : Option Nat
deriving DecidableEq

/-- A Docker stats snapshot, restricted to the keys
`_calculate_cpu_percent` reads.  `none` models an absent key (a `KeyError`
in the source). -/
structure StatsSnapshot where
  cpu_stats : Option CpuStatsBlock
  precpu_stats : Option CpuStatsBlock
deriving DecidableEq

/-- The body of `_calculate_cpu_percent` up to its `except KeyError`:
`none` means some key access raised `KeyError`.  Key accesses happen in the
source's evaluation order; `online_cpus` uses `.get('online_cpus', 1)` (so a
missing key defaults to 1 and raises nothing) and a falsy value falls back
to `len(percpu_usage)` (whose absence DOES raise). -/
def cpuPercentCore (stats : StatsSnapshot) : Option ℚ := do
  let cs ← stats.cpu_stats
  let cu ← cs.cpu_usage
  let cuT ← cu.total_usage
  let ps ← stats.precpu_stats
  let pu ← ps.cpu_usage
  let puT ← pu.total_usage
  let cpuDelta : Int := cuT - puT
  let csS ← cs.system_cpu_usage
  let psS ← ps.system_cpu_usage
  let systemDelta : Int := csS - psS
  if 0 < systemDelta ∧ 0 < cpuDelta then
    let onlineRaw : Nat := cs.online_cpus.getD 1
    if onlineRaw ≠ 0 then
      pure (((cpuDelta : ℚ) / (systemDelta : ℚ)) * (onlineRaw : ℚ) * 100)
    else do
      let pcl ← cu.percpu_usage
      pure (((cpuDelta : ℚ) / (systemDelta : ℚ)) * (pcl.length : ℚ) * 100)
  else
    pure 0

/-- `_calculate_cpu_percent(stats)`: any `KeyError` is swallowed and the
function returns `0.0`; so does the branch where a delta is not positive. -/
def calculateCpuPercent (stats : StatsSnapshot) : ℚ :=
  (cpuPercentCore stats).getD 0

/-- One entry of `container.attrs['NetworkSettings']['Networks']`: the
network's name and the container's `IPAddress` on it (possibly the empty
string). -/
structure NetworkAttachment where
  name : String
  ipAddress : String
deriving DecidableEq

/-- Does the pattern occur as a contiguous substring of the character list?
Executable rendering of Python's `in` on strings. -/
def charsInfix (p : List Char) : List Char → Bool
  | [] => p.isEmpty
  | c :: t => List.isPrefixOf p (c :: t) || charsInfix p t

/-- Python's `"autotest" in net_name`. -/
def nameContainsAutotest (s : String) : Bool :=
  charsInfix "autotest".toList s.toList

/-- First phase of the IP-resolution logic of `_perform_health_check`
(lines 230-246): the `IPAddress` of the first network whose name contains
`"autotest"`, the empty string when there is none.  If this leaves
`ip_address` falsy, the source falls back to the first network with a
non-empty `IPAddress`; if that fails too, the raised exception is caught
and the probe fails. -/
def autotestIp (nets : List NetworkAttachment) : String :=
  match nets.find? (fun n => nameContainsAutotest n.name) with
  | some n => n.ipAddress
  | none => ""

/-- Second phase of the IP resolution: the first network with a non-empty
address. -/
def fallbackIp (nets : List NetworkAttachment) : Option String :=
  match nets.find? (fun n => decide (n.ipAddress ≠ "")) with
  | some n => some n.ipAddress
  | none => none

/-- Combined resolution, returning `none` when no address was found. -/
def resolveIp (nets : List NetworkAttachment) : Option String :=
  if autotestIp nets = "" then fallbackIp nets else some (autotestIp nets)

/-- The container attributes `_perform_health_check` reads: whether
`container.reload()` and the attribute accesses succeed, whether
`attrs['State']['Running']` is true, and the network attachments. -/
structure ProbeContainer where
  reloadOk : Bool
  running : Bool
  networks : List NetworkAttachment
deriving DecidableEq

/-- Behaviour of `requests.get(url, timeout=5)`: a response with a status
code, or a timeout / connection error (both raise, both are caught). -/
inductive HttpOutcome where
  | status (code : Int)
  | timeout
  | connError
deriving DecidableEq

/-- Behaviour of `socket.create_connection((ip, port), timeout=5)`. -/
inductive TcpOutcome where
  | ok
  | fail
deriving DecidableEq

/-- The network world a single probe runs against. -/
structure ProbeWorld where
  http : HttpOutcome
  tcp : TcpOutcome
deriving DecidableEq

/-- A validated health-check rule as the probe reads it: `hc_rule['type']`
is accessed unconditionally (validation guarantees its presence), the
type-specific fields inside the `try`. -/
structure HcRule where
  type : String
  endpoint : Option String
  port : Option String
deriving DecidableEq

/-- Target-port guessing for the `http_get` branch (lines 263-272):
`service_config['expose'][0]`, else `service_config['ports'][0]` split on
`:` taking the last piece, else `"5000"`.  `none` models the `IndexError`
of indexing an empty list (caught, probe fails). -/
def resolveHttpPort (svc : ServiceCfg) : Option String :=
  match svc.expose with
  | some l => l.head?
  | none =>
    match svc.ports with
    | some l => (l.head?).map (fun s => (s.splitOn ":").getLastD "")
    | none => some "5000"

/-- `_perform_health_check(container, service_config, hc_rule)`: total over
all inputs; every failure path of the source returns `False`. -/
def performHealthCheck (c : ProbeContainer) (svc : ServiceCfg) (hc : HcRule)
    (w : ProbeWorld) : Bool :=
  if ¬c.reloadOk then false
  else if ¬c.running then false
  else
    match resolveIp c.networks with
    | none => false
    | some _ip =>
      if hc.type = "http_get" then
        match hc.endpoint with
        | none => false
        | some _e =>
          match resolveHttpPort svc with
          | none => false
          | some _p =>
            match w.http with
            | .status code => if 200 ≤ code ∧ code < 300 then true else false
            | .timeout => false
            | .connError => false
      else if hc.type = "tcp_connect" then
        match hc.port with
        | none => false
        | some p =>
          match p.toInt? with
          | none => false
          | some _n =>
            match w.tcp with
            | .ok => true
            | .fail => false
      else false

/-- The conditions under which a probe reports Healthy, as a predicate. -/
def probeHealthyConditions (c : ProbeContainer) (svc : ServiceCfg)
    (hc : HcRule) (w : ProbeWorld) : Prop :=
  c.reloadOk = true ∧ c.running = true ∧ (resolveIp c.networks).isSome ∧
    ((hc.type = "http_get" ∧ hc.endpoint.isSome ∧
        (resolveHttpPort svc).isSome ∧
        (∃ code, w.http = HttpOutcome.status code ∧ 200 ≤ code ∧ code < 300)) ∨
     (hc.type = "tcp_connect" ∧
        (∃ p, hc.port = some p ∧ (String.toInt? p).isSome) ∧
        w.tcp = TcpOutcome.ok))

/-- Outcome of `yaml.safe_load`: a syntax error, `None` (empty document), or
a parsed top-level dictionary. -/
inductive YamlLoad where
  | yamlError
  | value (v : Option ConfigDict)
deriving DecidableEq

/-- `_validate_and_set_defaults` on one service's `health_check` (the
in-place mutation is returned): `type` must exist and be `http_get` (with an
`endpoint`) or `tcp_connect` (with a `port`); then `setdefault` fills
`retries` (3) and `interval` (15). -/
def validateHc (svcName : String) (hc : RawHc) : Except String RawHc :=
  match hc.type with
  | none => .error ("Servicio '" ++ svcName ++ "': health_check debe definir un tipo")
  | some t =>
    if t = "http_get" then
      match hc.endpoint with
      | none => .error ("Servicio '" ++ svcName ++ "': falta endpoint")
      | some _ =>
        .ok ⟨hc.type, hc.endpoint, hc.port,
             some (hc.retries.getD 3), some (hc.interval.getD 15)⟩
    else if t = "tcp_connect" then
      match hc.port with
      | none => .error ("Servicio '" ++ svcName ++ "': falta port")
      | some _ =>
        .ok ⟨hc.type, hc.endpoint, hc.port,
             some (hc.retries.getD 3), some (hc.interval.getD 15)⟩
    else .error ("Servicio '" ++ svcName ++ "': tipo no valido")

/-- `_validate_and_set_defaults` over the whole document: services without a
`health_check` pass through untouched; if `services` is absent the function
returns immediately. -/
def validateAndSetDefaults (d : ConfigDict) : Except String ConfigDict :=
  match d.services with
  | none => .ok d
  | some svcs =>
    match svcs.mapM (fun p =>
        match p.2.health_check with
        | none => Except.ok p
        | some hc =>
          (validateHc p.1 hc).map (fun hc₁ =>
            (p.1, { p.2 with health_check := some hc₁ }))) with
    | .error e => .error e
    | .ok svcs₁ => .ok ⟨some svcs₁, d.extraKeys⟩

/-- The empty dictionary `load_config` returns for an empty YAML file. -/
def emptyConfigDict : ConfigDict := ⟨none, []⟩

/-- `config_parser.load_config`: a YAML syntax error is re-raised as an
`Exception`; a `None` document becomes the empty dictionary (returned before
validation runs); otherwise the document is validated (a `ValueError` is
re-raised as an `Exception`) and returned. -/
def loadConfig : YamlLoad → Except String ConfigDict
  | .yamlError => .error "Error de sintaxis en el archivo YML"
  | .value none => .ok emptyConfigDict
  | .value (some d) =>
    match validateAndSetDefaults d with
    | .error e => .error ("Error de validacion de configuracion: " ++ e)
    | .ok d₁ => .ok d₁

/-- The deploy CLI's manifest check (`agente.py`, lines 42-44):
`if not config_data or 'services' not in config_data` rejects the manifest. -/
def deployCliAccepts (d : ConfigDict) : Bool :=
  ¬(d.isEmptyDict || d.services.isNone)

/-- A runtime in which every call succeeds. -/
def allOkFault : SvcFault := ⟨true, true, true, true⟩

/-- Deploy behaviour with a healthy runtime. -/
def demoFaults : DeployFault := ⟨true, fun _ => allOkFault⟩

/-- A manifest whose second service defines neither `image` nor `build`:
its deploy fails with the `ValueError` after the first service is up. -/
def demoServices : List (String × ServiceCfg) :=
  [("web", ⟨some "nginx:latest", none, none, none, [], none, none⟩),
   ("db", ⟨none, none, none, none, [], none, none⟩)]

/-- A runtime state holding one deployed environment
(`autotest-env-ab12cd34`): its primary container and its network. -/
def demoTeardownState : DockerState :=
  ⟨[⟨"autotest-env-ab12cd34-web",
     deployServiceLabels "autotest-env-ab12cd34" "web", RemovalOutcome.ok⟩],
   [⟨"autotest-env-ab12cd34-net",
     [(LabelKey.envLabel, "autotest-env-ab12cd34"),
      (LabelKey.traefikEnable, "true")], RemovalOutcome.ok⟩]⟩

/-- Two `cpu_usage`/`scale_up` rules with different thresholds on one
service. -/
def demoTwoRules : List OptRule :=
  [⟨"cpu_usage", "scale_up", 50⟩, ⟨"cpu_usage", "scale_up", 80⟩]

/-- A stats snapshot with every key present: totals 300/100, system
400/0, 2 online CPUs. -/
def demoStats : StatsSnapshot :=
  ⟨some ⟨some ⟨some 300, none⟩, some 400, some 2⟩,
   some ⟨some ⟨some 100, none⟩, some 0, none⟩⟩

/-- A stats snapshot whose only missing key is `online_cpus` (deltas 1 and
1, so the deltas are positive). -/
def demoStatsNoOnline : StatsSnapshot :=
  ⟨some ⟨some ⟨some 2, none⟩, some 2, none⟩,
   some ⟨some ⟨some 1, none⟩, some 1, none⟩⟩

/-- C10: the external-reachability convention is the literal service name
`web`: the labels built by `deploy_environment` and `_scale_service_up`
carry routing labels (a `traefik.http.routers.{n}.rule` host rule for
`{env}.34.197.210.107.nip.io` and a
`traefik.http.services.{n}.loadbalancer.server.port` of `5000`) exactly
when the service name is `"web"`; a replica of `web` keys its routing
labels by the PRIMARY container's name, so primary and replica share one
router/service identifier; and the container is connected to
`traefik_default` exactly when the service name is `"web"`. -/
theorem web_routing_convention (env svc : String) :
    (hasRoutingLabels (deployServiceLabels env svc) = true ↔ svc = "web") ∧
    (hasRoutingLabels (replicaLabels env svc) = true ↔ svc = "web") ∧
    (LabelKey.routerRule (containerName env "web"), hostRuleValue env) ∈
      deployServiceLabels env "web" ∧
    (LabelKey.lbPort (containerName env "web"), "5000") ∈
      deployServiceLabels env "web" ∧
    (LabelKey.routerRule (containerName env "web"), hostRuleValue env) ∈
      replicaLabels env "web" ∧
    (LabelKey.lbPort (containerName env "web"), "5000") ∈
      replicaLabels env "web" ∧
    routerNames (replicaLabels env "web") =
      routerNames (deployServiceLabels env "web") ∧
    routerNames (deployServiceLabels env "web") = [containerName env "web"] ∧
    (connectsTraefikNetwork svc = true ↔ svc = "web") := by
  by_cases h : svc = "web" <;>
    simp [deployServiceLabels, replicaLabels, hasRoutingLabels, isRoutingKey,
      routerNames, connectsTraefikNetwork, h]

/-- C8: `load_config` turns an empty-but-syntactically-valid YAML document
(`yaml.safe_load` returns `None`) into the empty dictionary — a normal
return, not `None` and not an error — and the empty dictionary is then
rejected by the deploy CLI's `not config_data or 'services' not in
config_data` check, not by the parser. -/
theorem empty_manifest_handling :
    loadConfig (YamlLoad.value none) = Except.ok emptyConfigDict ∧
    deployCliAccepts emptyConfigDict = false := by
  constructor <;> rfl

/-- C2 counterexample: with `retries = 1` and a fresh counter, one Unhealthy
verdict reaches the threshold and fires the self-healing block, but when
the restart attempt fails (`NotFound`), the counter is NOT reset to 0 —
refuting "resets ... regardless of the restart's outcome". -/
theorem restart_reset_counterexample :
    (monitorStep 1 0 ⟨Verdict.unhealthy, RestartOutcome.notFound⟩).2 = true ∧
    (monitorStep 1 0 ⟨Verdict.unhealthy, RestartOutcome.notFound⟩).1 ≠ 0 := by
  decide

/-- C2 (amended): when the consecutive-failure count reaches
`rule.retries`, the self-healing block fires; the counter is reset to 0
exactly when the restart succeeds — on a not-found or API error the counter
keeps its incremented value (so the block re-fires on later cycles). -/
theorem restart_reset_amended (r c : Nat) (inp : CycleInput)
    (hv : inp.verdict ≠ Verdict.healthy) (hr : r ≤ c + 1) :
    (inp.restart = RestartOutcome.ok → monitorStep r c inp = (0, true)) ∧
    (inp.restart ≠ RestartOutcome.ok → monitorStep r c inp = (c + 1, true)) := by
  unfold monitorStep
  simp only [hv, if_neg, if_pos hr]
  cases h : inp.restart <;> simp [h, hr]

/-- Witness for `restart_reset_amended` at `retries = 1`, counter 0: a
successful restart resets the counter, a failed one leaves it at 1. -/
theorem restart_reset_amended_witness :
    monitorStep 1 0 ⟨Verdict.unhealthy, RestartOutcome.ok⟩ = (0, true) ∧
    monitorStep 1 0 ⟨Verdict.unhealthy, RestartOutcome.apiError⟩ = (1, true) :=
  ⟨(restart_reset_amended 1 0 ⟨Verdict.unhealthy, RestartOutcome.ok⟩
      (by decide) (by decide)).1 rfl,
   (restart_reset_amended 1 0 ⟨Verdict.unhealthy, RestartOutcome.apiError⟩
      (by decide) (by decide)).2 (by decide)⟩

/-- Cycles whose verdicts all increment the counter and never reach the
threshold leave the counter at its running total and fire no restart. -/
theorem monitorRun_below_threshold (r : Nat) :
    ∀ (inputs : List CycleInput) (c : Nat),
      (∀ i ∈ inputs, i.verdict ≠ Verdict.healthy) →
      c + inputs.length < r →
      monitorRun r c inputs = (c + inputs.length, 0) := by
  intro inputs
  induction inputs with
  | nil => intro c _ _; simp [monitorRun]
  | cons inp rest ih =>
    intro c hv hlt
    have hv₀ : inp.verdict ≠ Verdict.healthy := hv inp (by simp)
    have hstep : monitorStep r c inp = (c + 1, false) := by
      unfold monitorStep
      have : ¬ r ≤ c + 1 := by
        simp only [List.length_cons] at hlt
        omega
      simp [hv₀, this]
    have hrest := ih (c + 1) (fun i hi => hv i (by simp [hi]))
      (by simp only [List.length_cons] at hlt; omega)
    simp only [monitorRun, hstep, hrest, List.length_cons]
    simp only [Prod.mk.injEq]
    refine ⟨by omega, by simp⟩

/-- `monitorRun` splits over list append: counters thread through, restart
tallies add. -/
theorem monitorRun_append (r : Nat) :
    ∀ (xs ys : List CycleInput) (c : Nat),
      monitorRun r c (xs ++ ys) =
        ((monitorRun r (monitorRun r c xs).1 ys).1,
         (monitorRun r c xs).2 + (monitorRun r (monitorRun r c xs).1 ys).2) := by
  intro xs
  induction xs with
  | nil => intro ys c; simp [monitorRun]
  | cons x rest ih =>
    intro ys c
    simp only [List.cons_append, monitorRun, List.append_eq, ih]
    simp only [Prod.mk.injEq, true_and]
    omega

/-- C3 counterexample: with `retries = 1`, the 1st consecutive Unhealthy
verdict (here: a missing container) fires the self-healing block, but the
restart attempt fails with `NotFound` and the counter is left at 1, not 0 —
refuting "the r-th consecutive Unhealthy verdict ... leaves the counter at
0" as an unconditional statement. -/
theorem failure_counter_counterexample :
    (monitorRun 1 0 [⟨Verdict.missing, RestartOutcome.notFound⟩]).2 = 1 ∧
    (monitorRun 1 0 [⟨Verdict.missing, RestartOutcome.notFound⟩]).1 ≠ 0 := by
  decide

/-- C3 (amended): for a service with `retries = r ≥ 1`, `r - 1` consecutive
Unhealthy verdicts (a missing container counts as Unhealthy) fire no
restart and leave the counter at `r - 1`; the `r`-th consecutive Unhealthy
verdict fires exactly one restart and — when the restart command succeeds —
leaves the counter at 0; a Healthy verdict in any state immediately resets
the counter to 0 without firing a restart. -/
theorem failure_counter_amended (r : Nat) (hr : 1 ≤ r) :
    (∀ inputs : List CycleInput, inputs.length = r - 1 →
      (∀ i ∈ inputs, i.verdict ≠ Verdict.healthy) →
      monitorRun r 0 inputs = (r - 1, 0)) ∧
    (∀ (pre : List CycleInput) (last : CycleInput), pre.length = r - 1 →
      (∀ i ∈ pre, i.verdict ≠ Verdict.healthy) →
      last.verdict ≠ Verdict.healthy → last.restart = RestartOutcome.ok →
      monitorRun r 0 (pre ++ [last]) = (0, 1)) ∧
    (∀ (c : Nat) (inp : CycleInput), inp.verdict = Verdict.healthy →
      monitorStep r c inp = (0, false)) := by
  have hbelow : ∀ inputs : List CycleInput, inputs.length = r - 1 →
      (∀ i ∈ inputs, i.verdict ≠ Verdict.healthy) →
      monitorRun r 0 inputs = (r - 1, 0) := by
    intro inputs hlen hv
    have := monitorRun_below_threshold r inputs 0 hv (by omega)
    simpa [hlen] using this
  refine ⟨hbelow, ?_, ?_⟩
  · intro pre last hlen hv hlast hok
    rw [monitorRun_append, hbelow pre hlen hv]
    have hstep : monitorStep r (r - 1) last = (0, true) := by
      unfold monitorStep
      have h1 : ¬ last.verdict = Verdict.healthy := hlast
      have h2 : r ≤ (r - 1) + 1 := by omega
      simp [h1, h2, hok]
    simp [monitorRun, hstep]
  · intro c inp hv
    unfold monitorStep
    have : ¬ r ≤ 0 := by omega
    simp [hv, this]

/-- Witness for `failure_counter_amended` at `retries = 3`: two Unhealthy
verdicts fire nothing and leave the counter at 2; the third (a missing
container, with a succeeding restart) fires exactly one restart and resets
the counter; a Healthy verdict resets a counter of 2. -/
theorem failure_counter_amended_witness :
    monitorRun 3 0 [⟨Verdict.unhealthy, RestartOutcome.apiError⟩,
                    ⟨Verdict.unhealthy, RestartOutcome.apiError⟩] = (2, 0) ∧
    monitorRun 3 0 [⟨Verdict.unhealthy, RestartOutcome.apiError⟩,
                    ⟨Verdict.unhealthy, RestartOutcome.apiError⟩,
                    ⟨Verdict.missing, RestartOutcome.ok⟩] = (0, 1) ∧
    monitorStep 3 2 ⟨Verdict.healthy, RestartOutcome.ok⟩ = (0, false) :=
  ⟨(failure_counter_amended 3 (by decide)).1
      [⟨Verdict.unhealthy, RestartOutcome.apiError⟩,
       ⟨Verdict.unhealthy, RestartOutcome.apiError⟩] (by decide) (by decide),
   (failure_counter_amended 3 (by decide)).2.1
      [⟨Verdict.unhealthy, RestartOutcome.apiError⟩,
       ⟨Verdict.unhealthy, RestartOutcome.apiError⟩]
      ⟨Verdict.missing, RestartOutcome.ok⟩ (by decide) (by decide)
      (by decide) rfl,
   (failure_counter_amended 3 (by decide)).2.2 2
      ⟨Verdict.healthy, RestartOutcome.ok⟩ rfl⟩

/-- C4 counterexample: a service defining TWO `cpu_usage`/`scale_up` rules
(thresholds 50 and 80) gets TWO replica containers in a single cycle when
the measured CPU is 90% — refuting "at most one additional replica per
service per cycle regardless of how many optimization rules the service
defines". -/
theorem scale_cap_counterexample :
    (optimizationPass "env1" "web" 90 (fun k => Nat.repr k) (fun _ => true)
        demoTwoRules 0 ⟨[], []⟩).containers.length = 2 ∧
    ¬((optimizationPass "env1" "web" 90 (fun k => Nat.repr k) (fun _ => true)
        demoTwoRules 0 ⟨[], []⟩).containers.length ≤ 1) := by
  decide

/-- C4 (amended): in one reconciliation cycle the autoscaler invokes
`_scale_service_up` once per firing rule; each invocation creates at most
one replica, so the number of containers grows by at most the number of
`cpu_usage`/`scale_up` rules whose threshold is exceeded — and for a
service defining at most one `cpu_usage`/`scale_up` rule, by at most one
per cycle regardless of how far over threshold the measured CPU is. -/
theorem scale_cap_amended (env svc : String) (cpu : ℚ) (idGen : Nat → String)
    (runOk : Nat → Bool) (rules : List OptRule) (k : Nat) (st : DockerState) :
    (optimizationPass env svc cpu idGen runOk rules k st).containers.length ≤
      st.containers.length + rules.countP (ruleFires cpu) ∧
    rules.countP (ruleFires cpu) ≤ rules.countP isCpuScaleRule ∧
    (rules.countP isCpuScaleRule ≤ 1 →
      (optimizationPass env svc cpu idGen runOk rules k st).containers.length ≤
        st.containers.length + 1) := by
  have hgrow : ∀ (rs : List OptRule) (k₀ : Nat) (st₀ : DockerState),
      (optimizationPass env svc cpu idGen runOk rs k₀ st₀).containers.length ≤
        st₀.containers.length + rs.countP (ruleFires cpu) := by
    intro rs
    induction rs with
    | nil => intro k₀ st₀; simp [optimizationPass]
    | cons r rest ih =>
      intro k₀ st₀
      by_cases hf : ruleFires cpu r = true
      · have hone : (scaleServiceUp env svc (idGen k₀) (runOk k₀)
            st₀).containers.length ≤ st₀.containers.length + 1 := by
          unfold scaleServiceUp
          by_cases hrun : runOk k₀ = true <;> simp [hrun]
        have := ih (k₀ + 1) (scaleServiceUp env svc (idGen k₀) (runOk k₀) st₀)
        simp only [optimizationPass, hf, if_true, List.countP_cons, hf]
        omega
      · have hf' : ruleFires cpu r = false := by
          simpa using hf
        have := ih k₀ st₀
        simp only [optimizationPass, hf', Bool.false_eq_true, if_false,
          List.countP_cons, hf']
        omega
  have hmono : rules.countP (ruleFires cpu) ≤ rules.countP isCpuScaleRule := by
    induction rules with
    | nil => simp
    | cons r rest ih =>
      have himp : ruleFires cpu r = true → isCpuScaleRule r = true := by
        simp only [ruleFires, isCpuScaleRule, Bool.and_eq_true,
          decide_eq_true_eq]
        tauto
      simp only [List.countP_cons]
      by_cases hf : ruleFires cpu r = true
      · simp [hf, himp hf]; omega
      · have hf' : ruleFires cpu r = false := by simpa using hf
        by_cases hs : isCpuScaleRule r = true <;> simp [hf', hs] <;> omega
  refine ⟨hgrow rules k st, hmono, ?_⟩
  intro hone
  have := hgrow rules k st
  omega

/-- Witness for `scale_cap_amended`: with a single `cpu_usage`/`scale_up`
rule (threshold 80) and a measured CPU of 150%, one cycle grows the
container set by at most one. -/
theorem scale_cap_amended_witness :
    (optimizationPass "env1" "web" 150 (fun k => Nat.repr k) (fun _ => true)
        [⟨"cpu_usage", "scale_up", 80⟩] 0 ⟨[], []⟩).containers.length ≤ 1 := by
  have h := (scale_cap_amended "env1" "web" 150 (fun k => Nat.repr k)
      (fun _ => true) [⟨"cpu_usage", "scale_up", 80⟩] 0 ⟨[], []⟩).2.2
      (by decide)
  simpa using h

/-- C5: with all keys present and both deltas positive,
`_calculate_cpu_percent` returns `(cpuDelta / systemDelta) × onlineCpus ×
100`; a zero `cpuDelta` or zero `systemDelta` yields 0%, as does the
no-prior-baseline snapshot (missing `precpu_stats['system_cpu_usage']`);
and a 0% reading fires no scale-up rule whose threshold is a (non-negative)
percentage. -/
theorem cpu_percent_spec :
    (∀ (cuT puT csS psS : Int) (n : Nat) (pc₁ pc₂ : Option (List Int))
        (on₂ : Option Nat),
      0 < cuT - puT → 0 < csS - psS → n ≠ 0 →
      calculateCpuPercent
          ⟨some ⟨some ⟨some cuT, pc₁⟩, some csS, some n⟩,
           some ⟨some ⟨some puT, pc₂⟩, some psS, on₂⟩⟩ =
        ((cuT - puT : Int) : ℚ) / ((csS - psS : Int) : ℚ) * (n : ℚ) * 100) ∧
    (∀ (cuT puT csS psS : Int) (onc on₂ : Option Nat)
        (pc₁ pc₂ : Option (List Int)),
      cuT - puT = 0 →
      calculateCpuPercent
          ⟨some ⟨some ⟨some cuT, pc₁⟩, some csS, onc⟩,
           some ⟨some ⟨some puT, pc₂⟩, some psS, on₂⟩⟩ = 0) ∧
    (∀ (cuT puT csS psS : Int) (onc on₂ : Option Nat)
        (pc₁ pc₂ : Option (List Int)),
      csS - psS = 0 →
      calculateCpuPercent
          ⟨some ⟨some ⟨some cuT, pc₁⟩, some csS, onc⟩,
           some ⟨some ⟨some puT, pc₂⟩, some psS, on₂⟩⟩ = 0) ∧
    (∀ (cuT puT csS : Int) (onc on₂ : Option Nat)
        (pc₁ pc₂ : Option (List Int)),
      calculateCpuPercent
          ⟨some ⟨some ⟨some cuT, pc₁⟩, some csS, onc⟩,
           some ⟨some ⟨some puT, pc₂⟩, none, on₂⟩⟩ = 0) ∧
    (∀ (rules : List OptRule), (∀ r ∈ rules, 0 ≤ r.threshold) →
      ∀ (env svc : String) (idGen : Nat → String) (runOk : Nat → Bool)
        (k : Nat) (st : DockerState),
      optimizationPass env svc 0 idGen runOk rules k st = st) := by
  refine ⟨?_, ?_, ?_, ?_, ?_⟩
  · intro cuT puT csS psS n pc₁ pc₂ on₂ h1 h2 h3
    have h1' : puT < cuT := by omega
    have h2' : psS < csS := by omega
    simp [calculateCpuPercent, cpuPercentCore, h1', h2', h3]
  · intro cuT puT csS psS onc on₂ pc₁ pc₂ h
    have h' : ¬ puT < cuT := by omega
    simp [calculateCpuPercent, cpuPercentCore, h']
  · intro cuT puT csS psS onc on₂ pc₁ pc₂ h
    have h' : ¬ psS < csS := by omega
    simp [calculateCpuPercent, cpuPercentCore, h']
  · intro cuT puT csS onc on₂ pc₁ pc₂
    simp [calculateCpuPercent, cpuPercentCore]
  · intro rules hth env svc idGen runOk
    induction rules with
    | nil => intro k st; simp [optimizationPass]
    | cons r rest ih =>
      intro k st
      have hr : ruleFires 0 r = false := by
        have h0 : (0 : ℚ) ≤ r.threshold := hth r (by simp)
        simp only [ruleFires, Bool.and_eq_true, decide_eq_true_eq,
          Bool.and_eq_false_iff]
        right
        simpa using not_lt.mpr h0
      have := ih (fun i hi => hth i (by simp [hi]))
      simp only [optimizationPass, hr, Bool.false_eq_true, if_false]
      exact this k st

/-- Witness for `cpu_percent_spec` at the snapshot `demoStats`
(deltas 200 and 400, 2 online CPUs): the reading is 100%; and a snapshot
with `cpuDelta = 0` reads 0%. -/
theorem cpu_percent_spec_witness :
    calculateCpuPercent demoStats = 100 ∧
    calculateCpuPercent
        ⟨some ⟨some ⟨some 7, none⟩, some 9, some 2⟩,
         some ⟨some ⟨some 7, none⟩, some 3, none⟩⟩ = 0 := by
  constructor
  · have h := cpu_percent_spec.1 300 100 400 0 2 none none none
      (by decide) (by decide) (by decide)
    rw [show demoStats =
      ⟨some ⟨some ⟨some 300, none⟩, some 400, some 2⟩,
       some ⟨some ⟨some 100, none⟩, some 0, none⟩⟩ from rfl, h]
    norm_num
  · exact cpu_percent_spec.2.1 7 7 9 3 (some 2) none none none (by decide)

/-- C9 counterexample: a snapshot missing only `online_cpus` (deltas 1 and
1) does NOT yield 0.0 — the `.get('online_cpus', 1)` default makes
`_calculate_cpu_percent` return 100.0, which fires a threshold-80 scale-up
rule — refuting "if any expected key ... is missing, it returns 0.0 ...
[and] can never ... trigger a scale-up". -/
theorem cpu_totality_counterexample :
    calculateCpuPercent demoStatsNoOnline ≠ 0 ∧
    calculateCpuPercent demoStatsNoOnline = 100 ∧
    ruleFires (calculateCpuPercent demoStatsNoOnline)
      ⟨"cpu_usage", "scale_up", 80⟩ = true := by
  have h : calculateCpuPercent demoStatsNoOnline = 100 := by
    norm_num [calculateCpuPercent, cpuPercentCore, demoStatsNoOnline]
  refine ⟨by rw [h]; norm_num, h, ?_⟩
  rw [h]
  simp only [ruleFires]
  norm_num

set_option maxHeartbeats 1000000 in
/-- C9 (amended): `_calculate_cpu_percent` is total — a missing
`cpu_stats`, `precpu_stats`, `cpu_usage`, `total_usage` or
`system_cpu_usage` key makes it return 0.0 instead of raising; but a
missing `online_cpus` key defaults the core count to 1 (so the result can
be non-zero and can trigger a scale-up), and an `online_cpus` of 0 falls
back to `len(percpu_usage)`, returning 0.0 when `percpu_usage` is then
also missing. -/
theorem cpu_totality_amended :
    (∀ ps, calculateCpuPercent ⟨none, ps⟩ = 0) ∧
    (∀ sys onc ps, calculateCpuPercent ⟨some ⟨none, sys, onc⟩, ps⟩ = 0) ∧
    (∀ pc sys onc ps,
      calculateCpuPercent ⟨some ⟨some ⟨none, pc⟩, sys, onc⟩, ps⟩ = 0) ∧
    (∀ (cuT : Int) pc₁ sys onc,
      calculateCpuPercent ⟨some ⟨some ⟨some cuT, pc₁⟩, sys, onc⟩, none⟩ = 0) ∧
    (∀ (cuT : Int) pc₁ sys onc sys₂ on₂,
      calculateCpuPercent
        ⟨some ⟨some ⟨some cuT, pc₁⟩, sys, onc⟩, some ⟨none, sys₂, on₂⟩⟩ = 0) ∧
    (∀ (cuT : Int) pc₁ sys onc pc₂ sys₂ on₂,
      calculateCpuPercent
        ⟨some ⟨some ⟨some cuT, pc₁⟩, sys, onc⟩,
         some ⟨some ⟨none, pc₂⟩, sys₂, on₂⟩⟩ = 0) ∧
    (∀ (cuT puT : Int) pc₁ onc pc₂ sys₂ on₂,
      calculateCpuPercent
        ⟨some ⟨some ⟨some cuT, pc₁⟩, none, onc⟩,
         some ⟨some ⟨some puT, pc₂⟩, sys₂, on₂⟩⟩ = 0) ∧
    (∀ (cuT puT csS : Int) pc₁ onc pc₂ on₂,
      calculateCpuPercent
        ⟨some ⟨some ⟨some cuT, pc₁⟩, some csS, onc⟩,
         some ⟨some ⟨some puT, pc₂⟩, none, on₂⟩⟩ = 0) ∧
    (∀ (cuT puT csS psS : Int) (pc₁ pc₂ : Option (List Int)) (on₂ : Option Nat),
      0 < cuT - puT → 0 < csS - psS →
      calculateCpuPercent
        ⟨some ⟨some ⟨some cuT, pc₁⟩, some csS, none⟩,
         some ⟨some ⟨some puT, pc₂⟩, some psS, on₂⟩⟩ =
          ((cuT - puT : Int) : ℚ) / ((csS - psS : Int) : ℚ) * 1 * 100) ∧
    (∀ (cuT puT csS psS : Int) (pc₂ : Option (List Int)) (on₂ : Option Nat),
      calculateCpuPercent
        ⟨some ⟨some ⟨some cuT, none⟩, some csS, some 0⟩,
         some ⟨some ⟨some puT, pc₂⟩, some psS, on₂⟩⟩ = 0) := by
  refine ⟨?_, ?_, ?_, ?_, ?_, ?_, ?_, ?_, ?_, ?_⟩
  · intro ps; rfl
  · intro sys onc ps; rfl
  · intro pc sys onc ps; rfl
  · intro cuT pc₁ sys onc; simp [calculateCpuPercent, cpuPercentCore]
  · intro cuT pc₁ sys onc sys₂ on₂; simp [calculateCpuPercent, cpuPercentCore]
  · intro cuT pc₁ sys onc pc₂ sys₂ on₂
    simp [calculateCpuPercent, cpuPercentCore]
  · intro cuT puT pc₁ onc pc₂ sys₂ on₂
    simp [calculateCpuPercent, cpuPercentCore]
  · intro cuT puT csS pc₁ onc pc₂ on₂
    simp [calculateCpuPercent, cpuPercentCore]
  · intro cuT puT csS psS pc₁ pc₂ on₂ h1 h2
    have h1' : puT < cuT := by omega
    have h2' : psS < csS := by omega
    simp [calculateCpuPercent, cpuPercentCore, h1', h2']
  · intro cuT puT csS psS pc₂ on₂
    simp only [calculateCpuPercent, cpuPercentCore, Option.some_bind,
      Option.getD_some]
    by_cases hc : psS < csS ∧ puT < cuT
    · simp [hc]
    · simp [hc]

/-- Witness for `cpu_totality_amended`: the snapshot `demoStatsNoOnline`
(missing `online_cpus`, deltas 1 and 1) evaluates to `(1/1) × 1 × 100`, and
a snapshot missing `cpu_stats` entirely evaluates to 0. -/
theorem cpu_totality_amended_witness :
    calculateCpuPercent demoStatsNoOnline = ((1 : ℚ) / 1) * 1 * 100 ∧
    calculateCpuPercent ⟨none, none⟩ = 0 := by
  constructor
  · have h := cpu_totality_amended.2.2.2.2.2.2.2.2.1 2 1 2 1 none none none
      (by decide) (by decide)
    rw [show demoStatsNoOnline =
      ⟨some ⟨some ⟨some 2, none⟩, some 2, none⟩,
       some ⟨some ⟨some 1, none⟩, some 1, none⟩⟩ from rfl, h]
    norm_num
  · exact cpu_totality_amended.1 none

/-- C7: a single health probe is total — every failure mode (container not
running or not reloadable, unresolvable address, missing/empty port data,
non-2xx status, timeout, connection error, unparsable TCP port, unknown
check type) yields Unhealthy (`false`), and the probe yields Healthy
(`true`) exactly for a 2xx HTTP response or a successful TCP connect. -/
theorem probe_totality (c : ProbeContainer) (svc : ServiceCfg) (hc : HcRule)
    (w : ProbeWorld) :
    performHealthCheck c svc hc w = true ↔ probeHealthyConditions c svc hc w := by
  unfold performHealthCheck probeHealthyConditions
  cases hr : c.reloadOk with
  | false => simp [hr]
  | true =>
    cases hrun : c.running with
    | false => simp [hrun]
    | true =>
      rcases hip : resolveIp c.networks with _ | ip
      · simp [hip]
      · by_cases ht1 : hc.type = "http_get"
        · rcases he : hc.endpoint with _ | e
          · simp [hip, he, ht1]
          · rcases hpp : resolveHttpPort svc with _ | p
            · simp [hip, he, hpp, ht1]
            · rcases hw : w.http with code | _ | _
              · simp [hip, he, hpp, ht1, hw]
              · simp [hip, he, hpp, ht1, hw]
              · simp [hip, he, hpp, ht1, hw]
        · by_cases ht2 : hc.type = "tcp_connect"
          · rcases hp : hc.port with _ | p
            · simp [hip, hp, ht1, ht2]
            · rcases hti : p.toInt? with _ | n
              · simp [hip, hp, hti, ht1, ht2]
              · rcases hw : w.tcp with _ | _
                · simp [hip, hp, hti, ht1, ht2, hw]
                · simp [hip, hp, hti, ht1, ht2, hw]
          · simp [hip, ht1, ht2]

/-- When no listed container's removal hits an API error, the removal loop
completes; it never touches networks, and every surviving container was
already present and shares no name with a listed one. -/
theorem removeContainersLoop_ok (work : List DContainer) :
    ∀ st : DockerState,
      (∀ c ∈ work, c.removeOutcome ≠ RemovalOutcome.apiError) →
      ∃ st₁, removeContainersLoop work st = Except.ok st₁ ∧
        st₁.networks = st.networks ∧
        ∀ c ∈ st₁.containers,
          c ∈ st.containers ∧ ∀ x ∈ work, c.name ≠ x.name := by
  induction work with
  | nil =>
    intro st _
    exact ⟨st, rfl, rfl, fun c hc => ⟨hc, by simp⟩⟩
  | cons d rest ih =>
    intro st hout
    have hd : d.removeOutcome ≠ RemovalOutcome.apiError := hout d (by simp)
    obtain ⟨st₁, hloop, hnet, hmem⟩ := ih (st.eraseContainer d.name)
      (fun c hc => hout c (by simp [hc]))
    refine ⟨st₁, ?_, hnet, ?_⟩
    · cases hcase : d.removeOutcome with
      | ok => simpa [removeContainersLoop, hcase] using hloop
      | notFound => simpa [removeContainersLoop, hcase] using hloop
      | apiError => exact absurd hcase hd
    · intro c hc
      obtain ⟨hc₁, hrest⟩ := hmem c hc
      have hc₂ := List.mem_filter.mp hc₁
      have hname : c.name ≠ d.name := by simpa using hc₂.2
      refine ⟨hc₂.1, ?_⟩
      intro x hx
      rcases List.mem_cons.mp hx with h | h
      · exact h ▸ hname
      · exact hrest x h

/-- The network-removal loop never touches containers. -/
theorem removeNetworksLoop_containers (work : List DNetwork) :
    ∀ st : DockerState,
      ((removeNetworksLoop work st).1).containers = st.containers := by
  induction work with
  | nil => intro st; rfl
  | cons d rest ih =>
    intro st
    cases hcase : d.removeOutcome with
    | ok => simpa [removeNetworksLoop, hcase] using ih (st.eraseNetwork d.name)
    | notFound =>
      simpa [removeNetworksLoop, hcase] using ih (st.eraseNetwork d.name)
    | apiError => simp [removeNetworksLoop, hcase]

/-- When no listed network's removal hits an API error, the loop reports no
error and every surviving network shares no name with a listed one. -/
theorem removeNetworksLoop_ok (work : List DNetwork) :
    ∀ st : DockerState,
      (∀ n ∈ work, n.removeOutcome ≠ RemovalOutcome.apiError) →
      (removeNetworksLoop work st).2 = false ∧
      ∀ n ∈ ((removeNetworksLoop work st).1).networks,
        n ∈ st.networks ∧ ∀ x ∈ work, n.name ≠ x.name := by
  induction work with
  | nil =>
    intro st _
    exact ⟨rfl, fun n hn => ⟨hn, by simp⟩⟩
  | cons d rest ih =>
    intro st hout
    have hd : d.removeOutcome ≠ RemovalOutcome.apiError := hout d (by simp)
    obtain ⟨hflag, hmem⟩ := ih (st.eraseNetwork d.name)
      (fun n hn => hout n (by simp [hn]))
    have hred : removeNetworksLoop (d :: rest) st =
        removeNetworksLoop rest (st.eraseNetwork d.name) := by
      cases hcase : d.removeOutcome with
      | ok => simp [removeNetworksLoop, hcase]
      | notFound => simp [removeNetworksLoop, hcase]
      | apiError => exact absurd hcase hd
    rw [hred]
    refine ⟨hflag, ?_⟩
    intro n hn
    obtain ⟨hn₁, hrest⟩ := hmem n hn
    have hn₂ := List.mem_filter.mp hn₁
    have hname : n.name ≠ d.name := by simpa using hn₂.2
    refine ⟨hn₂.1, ?_⟩
    intro x hx
    rcases List.mem_cons.mp hx with h | h
    · exact h ▸ hname
    · exact hrest x h

/-- `destroy_environment` on a non-empty environment whose container
removals avoid API errors: it returns normally, the label query for
containers afterwards is empty regardless of network-removal outcomes, and
when the network removals also avoid API errors nothing is reported and the
network label query is empty too. -/
theorem destroy_completes (env : String) (st : DockerState)
    (hcont : ∀ c ∈ labeledContainers env st,
      c.removeOutcome ≠ RemovalOutcome.apiError)
    (hne : ¬((labeledContainers env st).isEmpty ∧
      (labeledNetworks env st).isEmpty)) :
    ∃ st₁ rep, destroyEnvironment env st = DestroyOutcome.completed st₁ rep ∧
      labeledContainers env st₁ = [] ∧
      ((∀ n ∈ labeledNetworks env st,
          n.removeOutcome ≠ RemovalOutcome.apiError) →
        rep = false ∧ labeledNetworks env st₁ = []) := by
  obtain ⟨stA, hloop, hnetA, hmemA⟩ :=
    removeContainersLoop_ok (labeledContainers env st) st hcont
  have hclearA : labeledContainers env stA = [] := by
    rw [labeledContainers, List.filter_eq_nil_iff]
    intro c hc hmatch
    obtain ⟨hin, hname⟩ := hmemA c hc
    exact hname c (List.mem_filter.mpr ⟨hin, hmatch⟩) rfl
  have hsameNets : labeledNetworks env stA = labeledNetworks env st := by
    unfold labeledNetworks
    rw [hnetA]
  refine ⟨(removeNetworksLoop (labeledNetworks env stA) stA).1,
          (removeNetworksLoop (labeledNetworks env stA) stA).2, ?_, ?_, ?_⟩
  · unfold destroyEnvironment
    rw [if_neg hne, hloop]
  · have hpres :=
      removeNetworksLoop_containers (labeledNetworks env stA) stA
    unfold labeledContainers
    rw [hpres]
    exact hclearA
  · intro hnets
    obtain ⟨hflag, hmemB⟩ := removeNetworksLoop_ok (labeledNetworks env stA)
      stA (by rw [hsameNets]; exact hnets)
    refine ⟨hflag, ?_⟩
    rw [labeledNetworks, List.filter_eq_nil_iff]
    intro n hn hmatch
    obtain ⟨hin, hname⟩ := hmemB n hn
    exact hname n (List.mem_filter.mpr ⟨hin, hmatch⟩) rfl

/-- C6: `destroy_environment` raises `EnvironmentNotFound` exactly when the
label query finds neither containers nor networks; otherwise (when no
container removal hits an API error) it returns normally with every labeled
container force-removed — removal of an already-gone resource counting as
success — and a network-removal API error is only reported: it neither
aborts the call nor undoes the container cleanup, while without such an
error every labeled network is removed too. -/
theorem teardown_contract (env : String) (st : DockerState) :
    (destroyEnvironment env st = DestroyOutcome.envNotFound st ↔
      labeledContainers env st = [] ∧ labeledNetworks env st = []) ∧
    ((∀ c ∈ labeledContainers env st,
        c.removeOutcome ≠ RemovalOutcome.apiError) →
      ¬(labeledContainers env st = [] ∧ labeledNetworks env st = []) →
      ∃ st₁ rep,
        destroyEnvironment env st = DestroyOutcome.completed st₁ rep ∧
        labeledContainers env st₁ = [] ∧
        ((∀ n ∈ labeledNetworks env st,
            n.removeOutcome ≠ RemovalOutcome.apiError) →
          rep = false ∧ labeledNetworks env st₁ = [])) := by
  constructor
  · by_cases hemp : (labeledContainers env st).isEmpty ∧
        (labeledNetworks env st).isEmpty
    · constructor
      · intro _
        exact ⟨List.isEmpty_iff.mp hemp.1, List.isEmpty_iff.mp hemp.2⟩
      · intro _
        unfold destroyEnvironment
        rw [if_pos hemp]
    · constructor
      · intro h
        exfalso
        unfold destroyEnvironment at h
        rw [if_neg hemp] at h
        cases hloop : removeContainersLoop (labeledContainers env st) st with
        | error st₁ => rw [hloop] at h; exact absurd h (by simp)
        | ok st₁ => rw [hloop] at h; exact absurd h (by simp)
      · intro h
        exact absurd ⟨List.isEmpty_iff.mpr h.1, List.isEmpty_iff.mpr h.2⟩ hemp
  · intro hcont hne
    exact destroy_completes env st hcont
      (fun hemp => hne ⟨List.isEmpty_iff.mp hemp.1, List.isEmpty_iff.mp hemp.2⟩)

/-- Witness for `teardown_contract` on a one-container, one-network
environment: teardown is not `EnvironmentNotFound`, and it completes with
both label queries empty and no network error reported. -/
theorem teardown_contract_witness :
    (¬(labeledContainers "autotest-env-ab12cd34" demoTeardownState = [] ∧
       labeledNetworks "autotest-env-ab12cd34" demoTeardownState = [])) ∧
    ∃ st₁ rep,
      destroyEnvironment "autotest-env-ab12cd34" demoTeardownState =
        DestroyOutcome.completed st₁ rep ∧
      labeledContainers "autotest-env-ab12cd34" st₁ = [] ∧
      ((∀ n ∈ labeledNetworks "autotest-env-ab12cd34" demoTeardownState,
          n.removeOutcome ≠ RemovalOutcome.apiError) →
        rep = false ∧ labeledNetworks "autotest-env-ab12cd34" st₁ = []) := by
  refine ⟨by decide, ?_⟩
  exact (teardown_contract "autotest-env-ab12cd34" demoTeardownState).2
    (by decide) (by decide)

/-- When the per-service deploy loop aborts with an error, that error is
the first failing service's own error, the networks are untouched, and the
containers created so far are exactly an appended batch of freshly created
(hence removable) containers. -/
theorem deployLoop_err (env : String) (faults : DeployFault) :
    ∀ (services : List (String × ServiceCfg)) (st : DockerState)
      (e : DeployError) (st₂ : DockerState),
      deployLoop env faults services st = Except.error (e, st₂) →
      firstDeployError env faults services = some e ∧
      st₂.networks = st.networks ∧
      ∃ added : List DContainer, st₂.containers = st.containers ++ added ∧
        ∀ c ∈ added, c.removeOutcome = RemovalOutcome.ok := by
  intro services
  induction services with
  | nil =>
    intro st e st₂ h
    exact absurd h (by simp [deployLoop])
  | cons sc rest ih =>
    intro st e st₂ h
    obtain ⟨svc, cfg⟩ := sc
    unfold deployLoop at h
    cases hri : resolveImage env svc cfg (faults.svc svc) with
    | error e₀ =>
      rw [hri] at h
      have hinj : e₀ = e ∧ st = st₂ := by
        have := Except.error.inj h
        exact ⟨congrArg Prod.fst this, congrArg Prod.snd this⟩
      refine ⟨?_, by rw [← hinj.2], [], by simp [← hinj.2], by simp⟩
      unfold firstDeployError serviceError
      rw [hri, hinj.1]
    | ok img =>
      rw [hri] at h
      by_cases hrun : (faults.svc svc).runOk = true
      · rw [if_pos hrun] at h
        obtain ⟨hfirst, hnet, added, hco, hok⟩ := ih _ e st₂ h
        refine ⟨?_, hnet, mkDeployedContainer env svc :: added, ?_, ?_⟩
        · unfold firstDeployError serviceError
          rw [hri, if_pos hrun]
          exact hfirst
        · simpa [List.append_assoc] using hco
        · intro c hc
          rcases List.mem_cons.mp hc with hcd | hcd
          · rw [hcd]; rfl
          · exact hok c hcd
      · rw [if_neg hrun] at h
        have hinj : DeployError.runFailed svc = e ∧ st = st₂ := by
          have := Except.error.inj h
          exact ⟨congrArg Prod.fst this, congrArg Prod.snd this⟩
        refine ⟨?_, by rw [← hinj.2], [], by simp [← hinj.2], by simp⟩
        unfold firstDeployError serviceError
        rw [hri, if_neg hrun, hinj.1]

/-- C1: deploy atomicity.  For a fresh environment id (no pre-existing
resources carry its label) whose network creation succeeds, ANY failure in
the per-service sequence (build directory missing, build error, image not
found, `ValueError`, container-run failure) makes `deploy_environment`
surface exactly that first error, after running `destroy_environment` on
the partial environment — so a label query after the failed deploy finds
zero containers and zero networks. -/
theorem deploy_atomicity (services : List (String × ServiceCfg))
    (faults : DeployFault) (env : String) (st : DockerState)
    (hc0 : labeledContainers env st = [])
    (hn0 : labeledNetworks env st = [])
    (hnet : faults.networkOk = true) (e : DeployError) (st₂ : DockerState)
    (herr : deployEnvironment services faults env st = Except.error (e, st₂)) :
    firstDeployError env faults services = some e ∧
    labeledContainers env st₂ = [] ∧ labeledNetworks env st₂ = [] := by
  unfold deployEnvironment at herr
  rw [if_pos hnet] at herr
  cases hlo : deployLoop env faults services
      ⟨st.containers, st.networks ++ [mkEnvNetwork env]⟩ with
  | ok stOk =>
    rw [hlo] at herr
    exact absurd herr (by simp)
  | error p =>
    obtain ⟨e₀, st'⟩ := p
    rw [hlo] at herr
    obtain ⟨hfirst, hnets, added, hco, hok⟩ :=
      deployLoop_err env faults services _ e₀ st' hlo
    have hco' : st'.containers = st.containers ++ added := hco
    have hnets' : st'.networks = st.networks ++ [mkEnvNetwork env] := hnets
    have hcont : ∀ c ∈ labeledContainers env st',
        c.removeOutcome ≠ RemovalOutcome.apiError := by
      intro c hc
      have hmem := List.mem_filter.mp hc
      rw [hco'] at hmem
      rcases List.mem_append.mp hmem.1 with hin | hin
      · have hmem₂ : c ∈ labeledContainers env st :=
          List.mem_filter.mpr ⟨hin, hmem.2⟩
        rw [hc0] at hmem₂
        exact absurd hmem₂ (List.not_mem_nil c)
      · rw [hok c hin]; simp
    have hlnets : labeledNetworks env st' =
        [mkEnvNetwork env] := by
      unfold labeledNetworks
      rw [hnets']
      rw [List.filter_append]
      have h₁ : st.networks.filter
          (fun n => labelsMatch env n.labels) = [] := hn0
      rw [h₁]
      simp [labelsMatch, mkEnvNetwork]
    have hnempty : ¬((labeledContainers env st').isEmpty ∧
        (labeledNetworks env st').isEmpty) := by
      intro hemp
      have := hemp.2
      rw [hlnets] at this
      simp at this
    obtain ⟨stF, rep, hdes, hclear, hinner⟩ :=
      destroy_completes env st' hcont hnempty
    obtain ⟨hrep, hnetsF⟩ := hinner (by
      intro n hn
      rw [hlnets] at hn
      have : n = mkEnvNetwork env := by simpa using hn
      rw [this]
      simp [mkEnvNetwork])
    have hclean : cleanupAndFail env e₀ st' = (e₀, stF) := by
      unfold cleanupAndFail
      rw [hdes]
    have herr₂ : (Except.error (cleanupAndFail env e₀ st') :
        Except (DeployError × DockerState) (DockerState × List String)) =
        Except.error (e, st₂) := herr
    rw [hclean] at herr₂
    have hinj : e₀ = e ∧ stF = st₂ := by
      have := Except.error.inj herr₂
      exact ⟨congrArg Prod.fst this, congrArg Prod.snd this⟩
    rw [← hinj.1, ← hinj.2]
    exact ⟨hfirst, hclear, hnetsF⟩

/-- Witness for `deploy_atomicity`: deploying `demoServices` (whose second
service defines neither `image` nor `build`) into an empty runtime fails
with that service's `ValueError`, and afterwards the label query for the
attempted environment id finds nothing. -/
theorem deploy_atomicity_witness :
    firstDeployError "env1" demoFaults demoServices =
      some (DeployError.noImageNorBuild "db") ∧
    labeledContainers "env1" (⟨[], []⟩ : DockerState) = [] ∧
    labeledNetworks "env1" (⟨[], []⟩ : DockerState) = [] :=
  deploy_atomicity demoServices demoFaults "env1" ⟨[], []⟩ rfl rfl rfl
    (DeployError.noImageNorBuild "db") ⟨[], []⟩ rfl

/-- Witness for `probe_totality`: an `http_get` probe against a running
container on the environment network answering 200 is Healthy; the same
probe seeing a timeout is Unhealthy. -/
theorem probe_totality_witness :
    performHealthCheck ⟨true, true, [⟨"autotest-env-x-net", "10.0.0.2"⟩]⟩
      ⟨none, none, none, none, [], none, none⟩
      ⟨"http_get", some "/health", none⟩
      ⟨HttpOutcome.status 200, TcpOutcome.fail⟩ = true ∧
    performHealthCheck ⟨true, true, [⟨"autotest-env-x-net", "10.0.0.2"⟩]⟩
      ⟨none, none, none, none, [], none, none⟩
      ⟨"http_get", some "/health", none⟩
      ⟨HttpOutcome.timeout, TcpOutcome.fail⟩ = false := by
  constructor
  · exact (probe_totality ⟨true, true, [⟨"autotest-env-x-net", "10.0.0.2"⟩]⟩
      ⟨none, none, none, none, [], none, none⟩
      ⟨"http_get", some "/health", none⟩
      ⟨HttpOutcome.status 200, TcpOutcome.fail⟩).mpr
      ⟨rfl, rfl, by decide,
       Or.inl ⟨rfl, by decide, by decide, 200, rfl, by decide, by decide⟩⟩
  · have h := (probe_totality ⟨true, true, [⟨"autotest-env-x-net", "10.0.0.2"⟩]⟩
      ⟨none, none, none, none, [], none, none⟩
      ⟨"http_get", some "/health", none⟩
      ⟨HttpOutcome.timeout, TcpOutcome.fail⟩)
    by_cases hb : performHealthCheck
        ⟨true, true, [⟨"autotest-env-x-net", "10.0.0.2"⟩]⟩
        ⟨none, none, none, none, [], none, none⟩
        ⟨"http_get", some "/health", none⟩
        ⟨HttpOutcome.timeout, TcpOutcome.fail⟩ = true
    · obtain ⟨-, -, -, hcase⟩ := h.mp hb
      rcases hcase with ⟨-, -, -, code, hcode, -⟩ | ⟨-, -, hcase⟩
      · simp at hcode
      · exact absurd hcase (by decide)
    · simpa using hb

/-- Witness for `web_routing_convention`: the service `web` gets routing
labels, a `db` replica gets none. -/
theorem web_routing_convention_witness :
    hasRoutingLabels (deployServiceLabels "env1" "web") = true ∧
    hasRoutingLabels (replicaLabels "env1" "db") = false := by
  constructor
  · exact (web_routing_convention "env1" "web").1.mpr rfl
  · have h := (web_routing_convention "env1" "db").2.1
    by_cases hb : hasRoutingLabels (replicaLabels "env1" "db") = true
    · exact absurd (h.mp hb) (by decide)
    · simpa using hb
